import Mathlib

/-!
Shallow embedding of the NX-OS Ansible modules (jedelman8/nxos-ansible):
the VLAN / interface / switchport / MTU command generation pipelines and
the device-facing control flow of `nxos_vlan.main` and `nxos_mtu.main`.

Python values are modelled as follows: Python `str` is Lean `String`;
a Python dict of strings is an association list `Dict` (Python dicts have
distinct keys; CPython 2.7 iteration order is unspecified and is modelled
as insertion order - none of the verified properties depend on it);
`None`-or-absent is `Option.none` (xmltodict tables with a key mapped to
null are conflated with the key being absent); a Python value that may be
an `int` or a `str` is `PyV`; code that can raise an uncaught Python
exception returns `Except String _` carrying the exception name.
-/

set_option maxHeartbeats 1000000

/-- Model of Python `str.startswith` on character lists. -/
def startsAux : List Char → List Char → Bool
  | [], _ => true
  | _ :: _, [] => false
  | p :: ps, c :: cs => p == c && startsAux ps cs

/-- Python `s.startswith(p)`. -/
def pyStartswith (s p : String) : Bool :=
  startsAux p.data s.data

/-- Model of Python `needle in hay` substring containment. -/
def infAux (ndl : List Char) : List Char → Bool
  | [] => startsAux ndl []
  | c :: cs => startsAux ndl (c :: cs) || infAux ndl cs

/-- Python `needle in hay` for strings. -/
def pyIn (needle hay : String) : Bool :=
  infAux needle.data hay.data

/-- Python `s.upper()` (ASCII). -/
def pyUpper (s : String) : String :=
  ⟨s.data.map Char.toUpper⟩

/-- Python `s.isdigit()`. -/
def pyIsdigit (s : String) : Bool :=
  !s.data.isEmpty && s.data.all Char.isDigit

/-- Split a character list on a separator character; like Python's
`str.split(sep)` for a one-character `sep` (every separator occurrence
starts a new, possibly empty, chunk). -/
def splitAux (sep : Char) : List Char → List (List Char)
  | [] => [[]]
  | c :: cs =>
    match splitAux sep cs with
    | [] => [[]]
    | t :: ts => if c == sep then [] :: t :: ts else (c :: t) :: ts

/-- Python `s.split(sep)` for a one-character separator. -/
def pySplit (s : String) (sep : Char) : List String :=
  (splitAux sep s.data).map fun l => ⟨l⟩

/-- Python `c in s` for a single character. -/
def pyContainsChar (s : String) (c : Char) : Bool :=
  s.data.any fun c' => c' == c

/-- Accumulating decimal parser; `none` until at least one digit is seen. -/
def parseNatAux : List Char → Option Nat → Option Nat
  | [], acc => acc
  | c :: cs, acc =>
    if c.isDigit then parseNatAux cs (some ((acc.getD 0) * 10 + (c.toNat - '0'.toNat)))
    else none

/-- Python `int(s)` for decimal strings (no surrounding whitespace in any
input reaching it in these modules); `none` models `ValueError`. -/
def pyToInt (s : String) : Option Int :=
  match s.data with
  | '-' :: rest => (parseNatAux rest none).map fun n => -(n : Int)
  | '+' :: rest => (parseNatAux rest none).map fun n => (n : Int)
  | l => (parseNatAux l none).map fun n => (n : Int)

/-- Python truthiness of a string-or-None value: `None` and `""` are falsy;
returns the value when truthy. -/
def pyTruthy : Option String → Option String
  | none => none
  | some s => if s = "" then none else some s

/-- Python `'{0}'.format(x)` for a string-or-None `x` (formats `None` as
the text `"None"`). -/
def pyFormat : Option String → String
  | none => "None"
  | some s => s

/-- A Python dict with string keys and values, as an association list. -/
abbrev Dict := List (String × String)

/-- Python `d.get(k)` / `d[k]`: first binding of `k`. -/
def dget (d : Dict) (k : String) : Option String :=
  match d with
  | [] => none
  | (k', v) :: rest => if k' = k then some v else dget rest k

/-- Python `d[k] = v`: replace the binding in place, or append a new one. -/
def dset (d : Dict) (k v : String) : Dict :=
  match d with
  | [] => [(k, v)]
  | (k', v') :: rest => if k' = k then (k, v) :: rest else (k', v') :: dset rest k v

/-- Membership of a key/value pair in a dict (`(k, v) in d.items()`). -/
def pairMem (kv : String × String) (d : Dict) : Bool :=
  d.any fun kv' => kv'.1 == kv.1 && kv'.2 == kv.2

/-- `dict(set(a.items()).difference(b.items()))`: pairs of `a` absent from
`b`.  Python's `set` iteration order is unspecified; the pairs are kept in
`a`'s order. -/
def dictDiff (a b : Dict) : Dict :=
  a.filter fun kv => !(pairMem kv b)

/-- `dict(set(a.items()).intersection(b.items()))`: pairs common to both. -/
def dictCommon (a b : Dict) : Dict :=
  a.filter fun kv => pairMem kv b

/-- A Python value that is either an `int` or a `str` (the two kinds that
flow through the VLAN range pipeline). -/
inductive PyV
  | int (n : Int)
  | str (s : String)
deriving DecidableEq, BEq, Inhabited

/-- Python `int(v)` on an int-or-str value. -/
def pyIntOf : PyV → Option Int
  | .int n => some n
  | .str s => pyToInt s

/-- Python `'{}'.format(v)` on an int-or-str value. -/
def pyVFormat : PyV → String
  | .int n => toString n
  | .str s => s

/-- Ascending insertion into a sorted list of ints. -/
def insertSorted (n : Int) : List Int → List Int
  | [] => [n]
  | m :: ms => if n ≤ m then n :: m :: ms else m :: insertSorted n ms

/-- Python `list.sort()` on a list of ints (ascending). -/
def sortInts (l : List Int) : List Int :=
  l.foldr insertSorted []

/-- `nxos_vlan.numerical_sort`: coerce every element with `int(...)`
(raising `ValueError` on a non-numeric string), sort ascending, and render
each as a decimal string.  Note the result elements are Python strings. -/
def numerical_sort (string_int_list : List PyV) : Except String (List PyV) := do
  let as_int_list ← string_int_list.foldlM (fun acc v =>
    match pyIntOf v with
    | some n => Except.ok (acc ++ [n])
    | none => Except.error "ValueError") []
  Except.ok ((sortInts as_int_list).map fun n => PyV.str (toString n))

/-- `range(a, b + 1)` for ints. -/
def intRange (a b : Int) : List Int :=
  (List.range (b + 1 - a).toNat).map fun i => a + i

/-- Loop body of `nxos_vlan.vlan_range_to_list`: fold the comma-separated
tokens, stopping at the sentinel `"none"`; `A-B` tokens extend with the
inclusive range, other tokens are parsed with `int(...)`. -/
def vrtlAux : List String → List Int → Except String (List Int)
  | [], acc => Except.ok acc
  | part :: ps, acc =>
    if part = "none" then Except.ok acc
    else if pyContainsChar part '-' then
      match pySplit part '-' with
      | [x, y] =>
        match pyToInt x, pyToInt y with
        | some a, some b => vrtlAux ps (acc ++ intRange a b)
        | _, _ => Except.error "ValueError"
      | _ => Except.error "ValueError"
    else
      match pyToInt part with
      | some a => vrtlAux ps (acc ++ [a])
      | none => Except.error "ValueError"

/-- `nxos_vlan.vlan_range_to_list`: `None`/empty input yields `[]`;
otherwise the parsed ints are passed through `numerical_sort`, so the
returned elements are decimal strings. -/
def vlan_range_to_list (vlans : Option String) : Except String (List PyV) :=
  match pyTruthy vlans with
  | some s => (vrtlAux (pySplit s ',') []).bind fun ints =>
      numerical_sort (ints.map PyV.int)
  | none => Except.ok []

/-- `nxos_vlan.build_commands`. -/
def build_commands (vlans : List PyV) (state : String) : List String :=
  vlans.foldl (fun acc vlan =>
    if state = "present" then acc ++ ["vlan " ++ pyVFormat vlan]
    else if state = "absent" then acc ++ ["no vlan " ++ pyVFormat vlan]
    else acc) []

/-- `nxos_vlan.command_list_to_string`. -/
def command_list_to_string (command_list : List String) : String :=
  if command_list = [] then ""
  else String.intercalate " ; " command_list ++ " ;"

/-- `nxos_mtu.nested_command_list_to_string`. -/
def nested_command_list_to_string (command_lists : List (List String)) : String :=
  if command_lists = [] then ""
  else String.intercalate " "
    ((command_lists.filter fun each => !(each = [] : Bool)).map fun each =>
      String.intercalate " ; " each ++ " ;")

/-- `nxos_vlan.apply_key_map` (also in `nxos_get_vlan.py`): rename keys of
`table` through `key_map`, dropping keys with no (truthy) mapping; values
are already strings so `str(value)` is the identity here. -/
def apply_key_map (key_map : List (String × String)) (table : Dict) : Dict :=
  table.foldl (fun new_dict kv =>
    match pyTruthy (dget key_map kv.1) with
    | some new_key => dset new_dict new_key kv.2
    | none => new_dict) []

/-- A value map: canonical field name to (old value → new value) table. -/
abbrev ValueMap := List (String × List (String × String))

/-- Python `value[resource.get(key)]` seen as a total lookup: a `None` key
or a missing entry is `none` (`KeyError` at the call site). -/
def pyLookupN (tbl : List (String × String)) : Option String → Option String
  | none => none
  | some s => dget tbl s

/-- The loop of `apply_value_map` (identical in `nxos_vlan.py` and
`nxos_interface.py`), made state-explicit: the second component is the
state of the *caller's* dict after the loop, since each iteration executes
`resource[key] = value[resource.get(key)]` in place.  The first component
is `some "KeyError"` when a lookup fails; updates made by earlier
iterations persist in the dict in that case. -/
def avmAux : ValueMap → Dict → Option String × Dict
  | [], resource => (none, resource)
  | (key, tbl) :: rest, resource =>
    match pyLookupN tbl (dget resource key) with
    | none => (some "KeyError", resource)
    | some v => avmAux rest (dset resource key v)

/-- `apply_value_map(value_map, resource)`: the returned dict (Python
returns the same, mutated, object). -/
def apply_value_map (value_map : ValueMap) (resource : Dict) : Except String Dict :=
  match avmAux value_map resource with
  | (none, resource') => Except.ok resource'
  | (some e, _) => Except.error e

/-- The contents of the caller's `resource` object after
`apply_value_map(value_map, resource)` returns or raises: the assignments
happen through the reference, so the argument is mutated in place. -/
def apply_value_map_post (value_map : ValueMap) (resource : Dict) : Dict :=
  (avmAux value_map resource).2

/-- `reverse_value_map` of `nxos_vlan.get_vlan_config_commands`. -/
def vlan_reverse_value_map : ValueMap :=
  [("admin_state", [("down", "shutdown"), ("up", "no shutdown")])]

/-- `key_map` of `nxos_vlan.get_vlan`. -/
def vlan_key_map : List (String × String) :=
  [("vlanshowbr-vlanid-utf", "vlan_id"),
   ("vlanshowbr-vlanname", "name"),
   ("vlanshowbr-vlanstate", "vlan_state"),
   ("vlanshowbr-shutstate", "admin_state")]

/-- `value_map` of `nxos_vlan.get_vlan`. -/
def vlan_value_map : ValueMap :=
  [("admin_state", [("shutdown", "down"), ("noshutdown", "up")])]

/-- `VLAN_ARGS.get(param).format(**vlan)` in
`nxos_vlan.get_vlan_config_commands`: the command template for one delta
entry; a parameter with no template is `None.format(...)`, an
`AttributeError`. -/
def vlanArgFmt (param value : String) : Except String String :=
  if param = "name" then Except.ok ("name " ++ value)
  else if param = "vlan_state" then Except.ok ("state " ++ value)
  else if param = "admin_state" then Except.ok value
  else if param = "mode" then Except.ok ("mode " ++ value)
  else Except.error "AttributeError"

/-- `nxos_vlan.get_vlan_config_commands(vlan, vid)`: apply the reverse
value map when the delta touches `admin_state`, template each entry
(dropping empty commands), then prepend `vlan <vid>` and append `exit` -
the framing is emitted even when the delta is empty. -/
def get_vlan_config_commands (vlan : Dict) (vid : String) : Except String (List String) :=
  (if (pyTruthy (dget vlan "admin_state")).isSome then
      apply_value_map vlan_reverse_value_map vlan
    else
      Except.ok vlan).bind fun vlan' =>
  (vlan'.foldlM (fun acc kv =>
    (vlanArgFmt kv.1 kv.2).bind fun command =>
      Except.ok (if command = "" then acc else acc ++ [command]))
    ([] : List String)).bind fun commands =>
  Except.ok (("vlan " ++ vid) :: commands ++ ["exit"])

/-- The `TABLE_vlanbrief/ROW_vlanbrief` region of a `show vlan` body:
xmltodict yields a single row object when there is exactly one row and a
list of rows otherwise. -/
inductive RowEnv
  | single (row : Dict)
  | listRows (rows : List Dict)
deriving DecidableEq

/-- The `for vlan in vlan_table` loop of `nxos_vlan.get_list_of_vlans`:
collect each row's `vlanshowbr-vlanid-utf` (`KeyError` when absent). -/
def vlanRowsLoop : List Dict → List String → Except String (List String)
  | [], acc => Except.ok acc
  | row :: rows, acc =>
    match dget row "vlanshowbr-vlanid-utf" with
    | some v => vlanRowsLoop rows (acc ++ [v])
    | none => Except.error "KeyError"

/-- Body-processing core of `nxos_vlan.get_list_of_vlans`: a falsy body
yields `[]`; a list of rows yields each row's
`vlanshowbr-vlanid-utf` (`KeyError` when absent); a single (non-list) row
yields the literal `['1']`. -/
def get_list_of_vlans_body : Option RowEnv → Except String (List String)
  | none => Except.ok []
  | some (.single _) => Except.ok ["1"]
  | some (.listRows rows) => vlanRowsLoop rows []

/-- `nxos_interface.get_interface_speed`: translate an NX-API speed string
such as `'10 Gb/s'` into bits/sec; falls through every branch (Python
implicitly returns `None`) when no recognized form matches. -/
def get_interface_speed (speed : String) : Option String :=
  if pyStartswith speed "auto" then some "auto"
  else if pyStartswith speed "40" then some "40000"
  else if pyStartswith speed "100 G" then some "100000"
  else if pyStartswith speed "10" then some "10000"
  else if pyStartswith speed "1" then some "1000"
  else if pyStartswith speed "100 M" then some "100"
  else none

/-- The `if commands: commands.insert(0, 'interface ' + ...)` idiom that
ends both `nxos_interface.get_interface_config_commands` and
`nxos_switchport.get_switchport_config_commands`: prepend the framing
command exactly when any body command was produced. -/
def frameCommands (framing : String) (commands : List String) : List String :=
  if commands = [] then [] else framing :: commands

/-- `nxos_interface.get_interface_config_commands(device, interface, intf,
existing)` (the `device` argument is unused by the body and omitted):
build the body commands for the delta `interface`, re-emitting the
existing speed when `duplex` changes without a speed change, and prepend
`interface <intf>` when any body command was produced.  A truthy `mode`
other than `layer2`/`layer3`, or a truthy `admin_state` other than
`up`/`down`, leaves the local variable `command` unbound in the source
(`NameError`). -/
def get_interface_config_commands (interface : Dict) (intf : String)
    (existing : Dict) : Except String (List String) :=
  let cs1 : List String := match pyTruthy (dget interface "description") with
    | some desc => ["description " ++ desc]
    | none => []
  (match pyTruthy (dget interface "mode") with
    | some mode =>
      if mode = "layer2" then Except.ok (cs1 ++ ["switchport"])
      else if mode = "layer3" then Except.ok (cs1 ++ ["no switchport"])
      else Except.error "NameError"
    | none => Except.ok cs1).bind fun cs2 =>
  let delta_speed := pyTruthy (dget interface "speed")
  let duplex := pyTruthy (dget interface "duplex")
  let cs3 := match delta_speed with
    | some s => ("speed " ++ s) :: cs2
    | none => cs2
  let cs4 := match duplex with
    | some d =>
      (match delta_speed with
       | none => ("speed " ++ pyFormat (dget existing "speed")) :: cs3
       | some _ => cs3) ++ ["duplex " ++ d]
    | none => cs3
  (match pyTruthy (dget interface "admin_state") with
    | some a =>
      if a = "up" then Except.ok (cs4 ++ ["no shutdown"])
      else if a = "down" then Except.ok (cs4 ++ ["shutdown"])
      else Except.error "NameError"
    | none => Except.ok cs4).bind fun cs5 =>
  Except.ok (frameCommands ("interface " ++ intf) cs5)

/-- The fields of an existing/proposed switchport record that
`nxos_switchport.get_switchport_config_commands` reads
(`trunk_vlans_list` is a Python list, the rest strings). -/
structure Switchport where
  mode : Option String := none
  access_vlan : Option String := none
  native_vlan : Option String := none
  trunk_vlans : Option String := none
  trunk_vlans_list : Option (List String) := none
deriving DecidableEq

/-- `nxos_switchport.get_switchport_config_commands(interface, existing,
proposed)`.  Iterating `proposed.get('trunk_vlans_list')` (or testing
membership in `existing.get('trunk_vlans_list')`) when it is `None`
raises `TypeError` in the source. -/
def get_switchport_config_commands (interface : String)
    (existing proposed : Switchport) : Except String (List String) :=
  let cs0 : List String :=
    if proposed.mode ≠ existing.mode then
      if proposed.mode = some "trunk" then ["switchport mode trunk"]
      else if proposed.mode = some "access" then ["switchport mode access"]
      else []
    else []
  (if proposed.mode = some "access" then
      if existing.access_vlan = proposed.access_vlan then Except.ok cs0
      else Except.ok (cs0 ++ ["switchport access vlan " ++ pyFormat proposed.access_vlan])
    else if proposed.mode = some "trunk" then
      (if existing.trunk_vlans_list = proposed.trunk_vlans_list then Except.ok cs0
       else
         match proposed.trunk_vlans_list with
         | none => Except.error "TypeError"
         | some pl =>
           if pl = [] then Except.ok cs0
           else
             match existing.trunk_vlans_list with
             | none => Except.error "TypeError"
             | some el =>
               if pl.any (fun vlan => !(el.contains vlan)) then
                 Except.ok (cs0 ++
                   ["switchport trunk allowed vlan add " ++ pyFormat proposed.trunk_vlans])
               else Except.ok cs0).bind fun csA =>
      match pyTruthy proposed.native_vlan with
      | some nv =>
        if existing.native_vlan = proposed.native_vlan then Except.ok csA
        else Except.ok (csA ++ ["switchport trunk native vlan " ++ nv])
      | none => Except.ok csA
    else Except.ok cs0).bind fun cs1 =>
  Except.ok (frameCommands ("interface " ++ interface) cs1)

/-- Observable module actions: device round-trips and the Ansible exits.
`devShow`/`devConfig` are the `pycsco` Device client calls; `failJson` and
`exitJson` terminate the module; `pyError` is an uncaught Python
exception. -/
inductive Event
  | devShow (cmd : String) (textMode : Bool)
  | devConfig (cmds : String)
  | failJson (msg : String)
  | exitJson (changed : Bool) (commands : String)
  | pyError (msg : String)
deriving DecidableEq

/-- Trace computation: the events emitted so far, and `none` once the
module has terminated (fail_json/exit_json raise `SystemExit`; uncaught
exceptions also stop execution). -/
def TraceM (α : Type) : Type := List Event × Option α

instance : Monad TraceM where
  pure a := ([], some a)
  bind m k :=
    match m with
    | (evs, none) => (evs, none)
    | (evs, some a) =>
      match k a with
      | (evs2, b) => (evs ++ evs2, b)

/-- Emit one event and continue. -/
def emit (e : Event) : TraceM Unit := ([e], some ())

/-- Emit one event and stop (module exit or crash). -/
def halt {α : Type} (e : Event) : TraceM α := ([e], none)

/-- `module.fail_json(msg=...)`. -/
def fail_json {α : Type} (msg : String) : TraceM α := halt (.failJson msg)

/-- `module.exit_json(changed=..., commands=...)` (the result dicts carry
more fields; only `changed` and the command string matter here). -/
def exit_json {α : Type} (changed : Bool) (commands : String) : TraceM α :=
  halt (.exitJson changed commands)

/-- An uncaught Python exception. -/
def pyRaise {α : Type} (msg : String) : TraceM α := halt (.pyError msg)

/-- Run a pure `Except` step inside a trace (its error is an uncaught
exception). -/
def liftExc {α : Type} : Except String α → TraceM α
  | .ok a => ([], some a)
  | .error e => pyRaise e

/-- The events of a trace computation. -/
def runTrace {α : Type} (m : TraceM α) : List Event := m.1

/-- The interesting fields of a `TABLE_interface/ROW_interface` body of
`show interface X` on the MTU module's paths. -/
structure IntfRow where
  eth_mtu : Option String := none
  svi_mtu : Option String := none
  eth_mode : Option String := none
deriving DecidableEq

/-- A parsed NX-API response body as the MTU module sees it after
`xmltodict` and envelope unwrapping: a text body (for `text=True` reads),
a structured body holding `TABLE_interface/ROW_interface`, or a structured
body without that table (indexing it raises `KeyError`). -/
inductive NxBody
  | text (s : String)
  | intfTable (row : IntfRow)
  | noTable
deriving DecidableEq

/-- The external device collaborator for `nxos_mtu`: each show command
(with its text-mode flag) yields a parsed body or a `CLIError` string, and
each config call succeeds or yields a `CLIError`.  The device is a fixed
response table; none of the verified properties depend on post-apply
reads observing the applied state. -/
structure MtuDevice where
  showCmd : String → Bool → Except String NxBody
  configRes : String → Except String Unit

/-- `nxos_mtu.parsed_data_from_device`: on `CLIError`, commands containing
`show run interface` return the sentinel body `'DNE'`, anything else calls
`fail_json`. -/
def parsed_data_from_device_mtu (dev : MtuDevice) (command : String)
    (text : Bool) : TraceM NxBody := do
  emit (.devShow command text)
  match dev.showCmd command text with
  | .error _ =>
    if pyIn "show run interface" command then pure (NxBody.text "DNE")
    else fail_json ("Error sending " ++ command)
  | .ok body => pure body

/-- `nxos_mtu.get_system_mtu`: read `show run all | inc jumbomtu` in text
mode and keep the last space-separated token when it parses as an int
(else the empty string). -/
def get_system_mtu (dev : MtuDevice) : TraceM Dict := do
  let body ← parsed_data_from_device_mtu dev "show run all | inc jumbomtu" true
  match body with
  | .text s =>
    let sysmtu := (pySplit s ' ').getLastD ""
    let sysmtu := match pyToInt sysmtu with
      | some n => toString n
      | none => ""
    pure [("sysmtu", sysmtu)]
  | _ => pyRaise "AttributeError"

/-- `nxos_mtu.get_mtu`: read `show interface <intf>`; a missing
`TABLE_interface` key yields `{}` via the `except KeyError` arm; a
well-formed row also triggers the nested `get_system_mtu` read. -/
def get_mtu (dev : MtuDevice) (interface : String) : TraceM Dict := do
  let body ← parsed_data_from_device_mtu dev ("show interface " ++ interface) false
  match body with
  | .intfTable row =>
    let mtuVal := match row.eth_mtu with
      | some v => v
      | none => match row.svi_mtu with
        | some v => v
        | none => "unreadable_via_api"
    let sysd ← get_system_mtu dev
    (match dget sysd "sysmtu" with
     | some sv => pure [("mtu", mtuVal), ("sysmtu", sv)]
     | none => pure ([] : Dict))
  | .noTable => pure []
  | .text _ => pyRaise "TypeError"

/-- Result of `nxos_mtu.is_default`: `True`, `False` or the string
`'DNE'`. -/
inductive IsDefaultR
  | yes
  | no
  | dne
deriving DecidableEq

/-- `nxos_mtu.is_default`: text read of `show run interface <intf>`; the
`'DNE'` sentinel body propagates; otherwise the last line decides. -/
def is_default (dev : MtuDevice) (interface : String) : TraceM IsDefaultR := do
  let body ← parsed_data_from_device_mtu dev ("show run interface " ++ interface) true
  match body with
  | .text s =>
    if s = "DNE" then pure .dne
    else
      let lastLine := (pySplit s '\n').getLastD ""
      pure (if pyStartswith lastLine "interface" then .yes else .no)
  | _ => pyRaise "AttributeError"

/-- `nxos_mtu.get_interface_type`. -/
def get_interface_type (interface : String) : String :=
  if pyStartswith (pyUpper interface) "ET" then "ethernet"
  else if pyStartswith (pyUpper interface) "VL" then "svi"
  else if pyStartswith (pyUpper interface) "LO" then "loopback"
  else if pyStartswith (pyUpper interface) "MG" then "management"
  else if pyStartswith (pyUpper interface) "MA" then "management"
  else if pyStartswith (pyUpper interface) "PO" then "portchannel"
  else "unknown"

/-- `nxos_mtu.get_interface_mode`: ethernet/portchannel interfaces are
read from the device (`eth_mode` defaulting to `layer3`, with
`access`/`trunk` collapsed to `layer2`); loopback/svi are `layer3`;
anything else is `unknown`.  A structured body without the interface
table raises `KeyError` here (no handler). -/
def get_interface_mode (dev : MtuDevice) (interface intf_type : String) :
    TraceM String := do
  if intf_type = "ethernet" ∨ intf_type = "portchannel" then do
    let body ← parsed_data_from_device_mtu dev ("show interface " ++ interface) false
    match body with
    | .intfTable row =>
      let mode := row.eth_mode.getD "layer3"
      pure (if mode = "access" ∨ mode = "trunk" then "layer2" else mode)
    | .noTable => pyRaise "KeyError"
    | .text _ => pyRaise "TypeError"
  else if intf_type = "loopback" ∨ intf_type = "svi" then pure "layer3"
  else pure "unknown"

/-- `nxos_mtu.get_commands_config_mtu`: template each delta entry through
`CONFIG_ARGS` (unknown params fall to the dropped `'DNE'` default) and
prepend the `interface` framing command exactly when the delta has a
truthy `mtu`. -/
def get_commands_config_mtu (delta : Dict) (interface : Option String) :
    List String :=
  let commands := delta.foldl (fun acc kv =>
    if kv.1 = "mtu" then acc ++ ["mtu " ++ pyFormat (dget delta "mtu")]
    else if kv.1 = "sysmtu" then
      acc ++ ["system jumbomtu " ++ pyFormat (dget delta "sysmtu")]
    else acc) []
  if (pyTruthy (dget delta "mtu")).isSome then
    ("interface " ++ pyFormat interface) :: commands
  else commands

/-- `nxos_mtu.get_commands_remove_mtu`. -/
def get_commands_remove_mtu (delta : Dict) (interface : Option String) :
    List String :=
  let commands := delta.foldl (fun acc kv =>
    if kv.1 = "mtu" then acc ++ ["no mtu " ++ pyFormat (dget delta "mtu")]
    else if kv.1 = "sysmtu" then
      acc ++ ["no system jumbomtu " ++ pyFormat (dget delta "sysmtu")]
    else acc) []
  if (pyTruthy (dget delta "mtu")).isSome then
    ("interface " ++ pyFormat interface) :: commands
  else commands

/-- The module parameters of `nxos_mtu` that drive its device-facing
control flow (`None` when the caller leaves a parameter unset). -/
structure MtuParams where
  mtu : Option String := none
  interface : Option String := none
  sysmtu : Option String := none
  state : String := "present"

/-- The usage message of the sysmtu/interface/mtu combination check. -/
def mtuComboMsg : String :=
  "Proper usage-- either just use the sysmtu param or use interface AND mtu params"

/-- The layer-3 MTU bounds message (the source concatenates the three
string fragments without separating spaces). -/
def mtuL3Msg : String :=
  "Invalid MTU for Layer 3 interfaceneeds to be an even number between576 and 9216"

/-- `nxos_mtu.main` line 337: the sysmtu/interface/mtu combination check,
before any device interaction. -/
def mtuComboCheck (p : MtuParams) : TraceM Unit :=
  if (pyTruthy p.sysmtu).isSome ∧
      ((pyTruthy p.interface).isSome ∨ (pyTruthy p.mtu).isSome) then
    fail_json mtuComboMsg
  else pure ()

/-- `nxos_mtu.main` lines 341-350: read the existing state (per-interface
MTU, or the system MTU), also returning the interface name and type when
an interface was given. -/
def mtuReadExisting (p : MtuParams) (dev : MtuDevice) :
    TraceM (Dict × Option (String × String)) :=
  match pyTruthy p.interface with
  | some intf =>
    (if get_interface_type intf ≠ "ethernet" then
       (is_default dev intf) >>= fun r =>
       if r = .dne then
         fail_json "Invalid interface.  It does not exist on the switch."
       else pure ()
     else pure ()) >>= fun _ =>
    (get_mtu dev intf) >>= fun existing =>
    pure (existing, some (intf, get_interface_type intf))
  | none =>
    (get_system_mtu dev) >>= fun existing =>
    pure (existing, none)

/-- `nxos_mtu.main` lines 352-369: the per-interface MTU validation
(loopback rejection, L2 bound to sysmtu/1500, L3 bounds); note it runs
after `mtuReadExisting` and issues a further `show interface` read. -/
def mtuValidateMtu (p : MtuParams) (dev : MtuDevice) (existing : Dict)
    (info : Option (String × String)) : TraceM Unit :=
  match info, pyTruthy p.mtu with
  | some (intf, intf_type), some mtuVal =>
    (if intf_type = "loopback" then
       fail_json "Cannot set MTU for loopback interface."
     else pure ()) >>= fun _ =>
    (get_interface_mode dev intf intf_type) >>= fun mode =>
    if mode = "layer2" then
      if intf_type = "ethernet" ∨ intf_type = "portchannel" then
        match dget existing "sysmtu" with
        | none => pyRaise "KeyError"
        | some sysv =>
          if mtuVal ≠ sysv ∧ mtuVal ≠ "1500" then
            fail_json ("MTU on L2 interfaces can only be set to the system default (1500) or existing sysmtu value which is  " ++ sysv)
          else pure ()
      else pure ()
    else if mode = "layer3" then
      if intf_type = "ethernet" ∨ intf_type = "portchannel" ∨ intf_type = "svi" then
        match pyToInt mtuVal with
        | none => pyRaise "ValueError"
        | some n =>
          if n < 576 ∨ n > 9216 ∨ n % 2 ≠ 0 then fail_json mtuL3Msg
          else pure ()
      else pure ()
    else pure ()
  | _, _ => pure ()

/-- `nxos_mtu.main` lines 370-374: the sysmtu bounds validation. -/
def mtuValidateSysmtu (p : MtuParams) : TraceM Unit :=
  match pyTruthy p.sysmtu with
  | some sysv =>
    (match pyToInt sysv with
     | none => pyRaise "ValueError"
     | some n =>
       if n < 576 ∨ n > 9216 ∨ n % 2 ≠ 0 then
         fail_json "Invalid MTU- needs to be an even number between 576 and 9216"
       else pure ())
  | none => pure ()

/-- `nxos_mtu.main` lines 376-395: build proposed/delta/commands and join
them into the command string `cmds`. -/
def mtuCmds (p : MtuParams) (existing : Dict) : String :=
  let proposed : Dict :=
    (match p.mtu with | some v => [("mtu", v)] | none => []) ++
    (match p.sysmtu with | some v => [("sysmtu", v)] | none => [])
  let delta := dictDiff proposed existing
  let commands : List (List String) :=
    if p.state = "present" then
      if delta ≠ [] then [get_commands_config_mtu delta p.interface] else []
    else if p.state = "absent" then
      let common := dictCommon proposed existing
      if common ≠ [] then [get_commands_remove_mtu common p.interface] else []
    else []
  nested_command_list_to_string commands

/-- `nxos_mtu.main` lines 396-415: either report the computed commands
(check mode), or send them and re-read the end state before the final
exit. -/
def mtuApply (p : MtuParams) (check_mode : Bool) (dev : MtuDevice)
    (existing : Dict) : TraceM Unit :=
  if mtuCmds p existing ≠ "" then
    if check_mode then exit_json true (mtuCmds p existing)
    else
      (emit (.devConfig (mtuCmds p existing))) >>= fun _ =>
      match dev.configRes (mtuCmds p existing) with
      | .error e => pyRaise ("CLIError: " ++ e)
      | .ok _ =>
        (match pyTruthy p.interface with
         | some intf => (get_mtu dev intf) >>= fun _ => pure ()
         | none => (get_system_mtu dev) >>= fun _ => pure ()) >>= fun _ =>
        exit_json true (mtuCmds p existing)
  else exit_json false (mtuCmds p existing)

/-- `nxos_mtu.main` from the first validation check onward (the preceding
lines are Ansible argument plumbing and session construction with no
device round-trip), as the sequence of its phases in source order. -/
def mtu_main_t (p : MtuParams) (check_mode : Bool) (dev : MtuDevice) :
    TraceM Unit :=
  (mtuComboCheck p) >>= fun _ =>
  (mtuReadExisting p dev) >>= fun st =>
  (mtuValidateMtu p dev st.1 st.2) >>= fun _ =>
  (mtuValidateSysmtu p) >>= fun _ =>
  mtuApply p check_mode dev st.1

/-- The event trace of one `nxos_mtu.main` invocation. -/
def mtu_main (p : MtuParams) (check_mode : Bool) (dev : MtuDevice) :
    List Event :=
  runTrace (mtu_main_t p check_mode dev)

/-- The external device collaborator for `nxos_vlan`: the body of
`show vlan` (the `TABLE_vlanbrief/ROW_vlanbrief` region, `none` when the
body is falsy), the body of `show vlan id X` (the
`TABLE_vlanbriefid/ROW_vlanbriefid` row), and the config-call outcome.
Fixed response table, as for `MtuDevice`. -/
structure VlanDevice where
  showVlanBrief : Except String (Option RowEnv)
  showVlanId : String → Except String (Option Dict)
  configRes : String → Except String Unit

/-- `nxos_vlan.get_list_of_vlans`: issue `show vlan` (a `CLIError` calls
`fail_json`) and extract the VLAN id list from the body. -/
def get_list_of_vlans (dev : VlanDevice) : TraceM (List String) := do
  emit (.devShow "show vlan" false)
  match dev.showVlanBrief with
  | .error _ => fail_json "Error sending show vlan"
  | .ok body => liftExc (get_list_of_vlans_body body)

/-- `nxos_vlan.get_vlan`: issue `show vlan id <vlanid>`, then key-map and
value-map the row; a falsy body means the VLAN does not exist (`{}`). -/
def get_vlan (dev : VlanDevice) (vlanid : String) : TraceM Dict := do
  emit (.devShow ("show vlan id " ++ vlanid) false)
  match dev.showVlanId vlanid with
  | .error _ => fail_json ("Error sending show vlan id " ++ vlanid)
  | .ok none => pure []
  | .ok (some vlan_table) =>
    let vlan := apply_key_map vlan_key_map vlan_table
    liftExc (apply_value_map vlan_value_map vlan)

/-- The module parameters of `nxos_vlan` that drive its device-facing
control flow. -/
structure VlanParams where
  vlan_id : Option String := none
  vlan_range : Option String := none
  name : Option String := none
  vlan_state : Option String := none
  admin_state : Option String := none
  state : String := "present"

/-- Python `x or y` on string-or-None values. -/
def pyOr (a b : Option String) : Option String :=
  match pyTruthy a with
  | some _ => a
  | none => b

/-- Membership of a `PyV` in a list (`in` on the Python set). -/
def pyvMem (v : PyV) (l : List PyV) : Bool :=
  l.any fun x => x == v

/-- `nxos_vlan.main` lines 441-443: the `vlan_id` digit check, before any
device interaction. -/
def vlanDigitCheck (p : VlanParams) : TraceM Unit :=
  match pyTruthy p.vlan_id with
  | some vid =>
    if ¬ pyIsdigit vid then fail_json "vlan_id must be a valid VLAN ID"
    else pure ()
  | none => pure ()

/-- `nxos_vlan.main` `proposed` dict: parameters that are not `None`
(`name`, `vlan_state`, `admin_state`), in `args` order. -/
def vlanProposed (p : VlanParams) : Dict :=
  (match p.name with | some v => [("name", v)] | none => []) ++
  (match p.vlan_state with | some v => [("vlan_state", v)] | none => []) ++
  (match p.admin_state with | some v => [("admin_state", v)] | none => [])

/-- `nxos_vlan.main` lines 454-479: compute the command list - bulk
VLAN-id set difference/intersection on the `vlan_range` path, or the
single-VLAN read/diff on the `vlan_id` path (`'show vlan id ' + None`
would raise `TypeError`). -/
def vlanComputeCommands (p : VlanParams) (dev : VlanDevice)
    (proposed_vlans_list existing_vlans_list : List PyV) :
    TraceM (List String) :=
  match pyTruthy p.vlan_range with
  | some _ =>
    if p.state = "present" then
      let vlans_delta := proposed_vlans_list.filter
        fun v => !(pyvMem v existing_vlans_list)
      pure (build_commands vlans_delta p.state)
    else if p.state = "absent" then
      let vlans_common := proposed_vlans_list.filter
        fun v => pyvMem v existing_vlans_list
      pure (build_commands vlans_common p.state)
    else pure ([] : List String)
  | none =>
    match p.vlan_id with
    | none => pyRaise "TypeError"
    | some vid =>
      (get_vlan dev vid) >>= fun existing =>
      if p.state = "absent" then
        if existing ≠ [] then pure ["no vlan " ++ vid] else pure []
      else if p.state = "present" then
        let delta := dictDiff (vlanProposed p) existing
        if delta ≠ [] ∨ existing = [] then
          liftExc (get_vlan_config_commands delta vid)
        else pure []
      else pure []

/-- `nxos_vlan.main` lines 484-511: join the commands, then either report
(check mode), or send them (a `CLIError` calls `fail_json`) and re-read
the end state before the final exit. -/
def vlanApply (p : VlanParams) (check_mode : Bool) (dev : VlanDevice)
    (commands : List String) : TraceM Unit :=
  if command_list_to_string commands ≠ "" then
    if check_mode then exit_json true (command_list_to_string commands)
    else
      (emit (.devConfig (command_list_to_string commands))) >>= fun _ =>
      match dev.configRes (command_list_to_string commands) with
      | .error _ => fail_json "Error sending CLI commands"
      | .ok _ =>
        (get_list_of_vlans dev) >>= fun evl2 =>
        (liftExc (numerical_sort (evl2.map PyV.str))) >>= fun _ =>
        (match pyTruthy p.vlan_id with
         | some vid => (get_vlan dev vid) >>= fun _ => pure ()
         | none => pure ()) >>= fun _ =>
        exit_json true (command_list_to_string commands)
  else exit_json false (command_list_to_string commands)

/-- `nxos_vlan.main` from the `vlan_id` digit check onward (the preceding
lines are Ansible argument plumbing and session construction with no
device round-trip), as the sequence of its phases in source order.
Python builds deltas through unordered `set`s; the proposed order is kept
here (no verified property depends on it). -/
def vlan_main_t (p : VlanParams) (check_mode : Bool) (dev : VlanDevice) :
    TraceM Unit :=
  (vlanDigitCheck p) >>= fun _ =>
  (liftExc (vlan_range_to_list (pyOr p.vlan_id p.vlan_range))) >>= fun pv =>
  (liftExc (numerical_sort pv)) >>= fun proposed_vlans_list =>
  (get_list_of_vlans dev) >>= fun evl =>
  (liftExc (numerical_sort (evl.map PyV.str))) >>= fun existing_vlans_list =>
  (vlanComputeCommands p dev proposed_vlans_list existing_vlans_list) >>= fun commands =>
  vlanApply p check_mode dev commands

/-- The event trace of one `nxos_vlan.main` invocation. -/
def vlan_main (p : VlanParams) (check_mode : Bool) (dev : VlanDevice) :
    List Event :=
  runTrace (vlan_main_t p check_mode dev)

/-- Concrete device used for the `nxos_mtu` trace facts: an Ethernet
interface with MTU 1500 in layer-3 mode, system MTU 9216. -/
def mtuDevA : MtuDevice where
  showCmd := fun c _ =>
    if c = "show interface Ethernet1/1" then
      .ok (.intfTable { eth_mtu := some "1500" })
    else if c = "show run all | inc jumbomtu" then
      .ok (.text "system jumbomtu 9216")
    else .ok .noTable
  configRes := fun _ => .ok ()

/-- Dry-run safety of a single event: not a `config` call, and any module
exit that carries a non-empty command string reports `changed`. -/
def dryRunOk : Event → Bool
  | .devConfig _ => false
  | .exitJson changed commands => changed || (commands == "")
  | _ => true

/-- Concrete device used for the `nxos_vlan` trace facts: VLANs 1 and 20
exist; `show vlan id 20` returns VLAN 20 named WEB, active, not shut. -/
def vlanDevB : VlanDevice where
  showVlanBrief :=
    .ok (some (.listRows [[("vlanshowbr-vlanid-utf", "1")],
                          [("vlanshowbr-vlanid-utf", "20")]]))
  showVlanId := fun v =>
    if v = "20" then
      .ok (some [("vlanshowbr-vlanid-utf", "20"),
                 ("vlanshowbr-vlanname", "WEB"),
                 ("vlanshowbr-vlanstate", "active"),
                 ("vlanshowbr-shutstate", "noshutdown")])
    else .ok none
  configRes := fun _ => .ok ()

theorem dget_dset_self (d : Dict) (k v : String) : dget (dset d k v) k = some v := by
  induction d with
  | nil => simp [dget, dset]
  | cons kv rest ih =>
    obtain ⟨k', v'⟩ := kv
    by_cases h : k' = k
    · simp [dset, h, dget]
    · simp [dset, h, dget, ih]

theorem dget_dset_ne (d : Dict) (k k' v : String) (h : k' ≠ k) :
    dget (dset d k v) k' = dget d k' := by
  induction d with
  | nil => simp [dget, dset, Ne.symm h]
  | cons kv rest ih =>
    obtain ⟨a, b⟩ := kv
    by_cases ha : a = k
    · subst ha
      simp [dset, dget, Ne.symm h]
    · simp [dset, dget, ha, ih]

theorem avmAux_post_off (vm : ValueMap) (r : Dict) (k : String)
    (hk : k ∉ vm.map Prod.fst) :
    dget (avmAux vm r).2 k = dget r k := by
  induction vm generalizing r with
  | nil => rfl
  | cons e rest ih =>
    obtain ⟨k1, tbl1⟩ := e
    simp only [List.map_cons, List.mem_cons, not_or] at hk
    obtain ⟨hne, hrest⟩ := hk
    cases h : pyLookupN tbl1 (dget r k1) with
    | none => simp [avmAux, h]
    | some v =>
      simp only [avmAux, h]
      rw [ih (dset r k1 v) hrest, dget_dset_ne _ _ _ _ hne]

theorem avmAux_ok_on (vm : ValueMap) (r : Dict) (k : String)
    (tbl : List (String × String)) (hnd : (vm.map Prod.fst).Nodup)
    (hmem : (k, tbl) ∈ vm) (hok : (avmAux vm r).1 = none) :
    dget (avmAux vm r).2 k = pyLookupN tbl (dget r k) := by
  induction vm generalizing r with
  | nil => cases hmem
  | cons e rest ih =>
    obtain ⟨k1, tbl1⟩ := e
    simp only [List.map_cons, List.nodup_cons] at hnd
    obtain ⟨hk1, hndr⟩ := hnd
    cases h : pyLookupN tbl1 (dget r k1) with
    | none => simp [avmAux, h] at hok
    | some v =>
      simp only [avmAux, h] at hok ⊢
      rcases List.mem_cons.mp hmem with heq | hmem'
      · have hkk : k = k1 ∧ tbl = tbl1 := by
          simpa using heq
        obtain ⟨rfl, rfl⟩ := hkk
        rw [avmAux_post_off rest (dset r k v) k hk1, dget_dset_self, h]
      · have hne : k ≠ k1 := by
          intro hx
          exact hk1 (hx ▸ List.mem_map.mpr ⟨(k, tbl), hmem', rfl⟩)
        rw [ih (dset r k1 v) hndr hmem' hok, dget_dset_ne _ _ _ _ hne]

theorem avmAux_err_val (vm : ValueMap) (r : Dict) (e : String)
    (h : (avmAux vm r).1 = some e) : e = "KeyError" := by
  induction vm generalizing r with
  | nil => cases h
  | cons en rest ih =>
    obtain ⟨k1, tbl1⟩ := en
    cases hl : pyLookupN tbl1 (dget r k1) with
    | none =>
      simp [avmAux, hl] at h
      exact h.symm
    | some v =>
      simp only [avmAux, hl] at h
      exact ih (dset r k1 v) h

theorem avmAux_err_iff (vm : ValueMap) (r : Dict)
    (hnd : (vm.map Prod.fst).Nodup) :
    (avmAux vm r).1 = some "KeyError" ↔
      ∃ k tbl, (k, tbl) ∈ vm ∧ pyLookupN tbl (dget r k) = none := by
  induction vm generalizing r with
  | nil => simp [avmAux]
  | cons e rest ih =>
    obtain ⟨k1, tbl1⟩ := e
    simp only [List.map_cons, List.nodup_cons] at hnd
    obtain ⟨hk1, hndr⟩ := hnd
    cases h : pyLookupN tbl1 (dget r k1) with
    | none =>
      constructor
      · intro _
        exact ⟨k1, tbl1, List.mem_cons_self _ _, h⟩
      · intro _
        simp [avmAux, h]
    | some v =>
      simp only [avmAux, h]
      rw [ih (dset r k1 v) hndr]
      constructor
      · rintro ⟨k2, tbl2, hmem2, hfail⟩
        have hne : k2 ≠ k1 := by
          intro hx
          exact hk1 (hx ▸ List.mem_map.mpr ⟨(k2, tbl2), hmem2, rfl⟩)
        refine ⟨k2, tbl2, List.mem_cons_of_mem _ hmem2, ?_⟩
        rw [← dget_dset_ne r k1 k2 v hne]
        exact hfail
      · rintro ⟨k2, tbl2, hmem2, hfail⟩
        rcases List.mem_cons.mp hmem2 with heq | hmem2'
        · have hkk : k2 = k1 ∧ tbl2 = tbl1 := by
            simpa using heq
          obtain ⟨rfl, rfl⟩ := hkk
          rw [h] at hfail
          cases hfail
        · have hne : k2 ≠ k1 := by
            intro hx
            exact hk1 (hx ▸ List.mem_map.mpr ⟨(k2, tbl2), hmem2', rfl⟩)
          refine ⟨k2, tbl2, hmem2', ?_⟩
          rw [dget_dset_ne r k1 k2 v hne]
          exact hfail

/-- C4 (amended): `apply_value_map` rewrites `record[field]` through
`valueMap[field][record.get(field)]` for *every* field of the value map
(not only those present in the record - an absent field is looked up as
`None` and raises), leaves fields outside the value map unchanged, and
raises `KeyError` (a `LookupError`) exactly when some mapped field's
current value - `None` when the field is absent - has no entry in that
field's lookup table (value-map keys assumed distinct, as in both source
maps). -/
theorem c4_value_mapper (vm : ValueMap) (r : Dict)
    (hnd : (vm.map Prod.fst).Nodup) :
    (∀ r', apply_value_map vm r = Except.ok r' →
       (∀ k, k ∉ vm.map Prod.fst → dget r' k = dget r k) ∧
       (∀ k tbl, (k, tbl) ∈ vm → dget r' k = pyLookupN tbl (dget r k))) ∧
    (apply_value_map vm r = Except.error "KeyError" ↔
       ∃ k tbl, (k, tbl) ∈ vm ∧ pyLookupN tbl (dget r k) = none) := by
  have herr := avmAux_err_iff vm r hnd
  constructor
  · intro r' hok
    unfold apply_value_map at hok
    rcases hav : avmAux vm r with ⟨oe, r2⟩
    rw [hav] at hok
    cases oe with
    | some e => exact absurd hok (by simp)
    | none =>
      simp only [Except.ok.injEq] at hok
      subst hok
      constructor
      · intro k hk
        have hoff := avmAux_post_off vm r k hk
        rw [hav] at hoff
        exact hoff
      · intro k tbl hmem
        have hon := avmAux_ok_on vm r k tbl hnd hmem (by rw [hav])
        rw [hav] at hon
        exact hon
  · unfold apply_value_map
    rcases hav : avmAux vm r with ⟨oe, r2⟩
    cases oe with
    | none =>
      constructor
      · intro hcontra
        exact absurd hcontra (by simp)
      · intro hex
        have h1 := herr.mpr hex
        rw [hav] at h1
        cases h1
    | some e =>
      have he : e = "KeyError" := avmAux_err_val vm r e (by rw [hav])
      subst he
      constructor
      · intro _
        exact herr.mp (by rw [hav])
      · intro _
        simp

/-- C4 witness: the vlan read-direction value map applied to a record
whose `admin_state` is `shutdown` succeeds, maps that field, and leaves
the other field alone. -/
theorem c4_value_mapper_witness :
    ((vlan_value_map.map Prod.fst).Nodup) ∧
    ((∀ r', apply_value_map vlan_value_map [("vlan_id", "20"), ("admin_state", "shutdown")] = Except.ok r' →
       (∀ k, k ∉ vlan_value_map.map Prod.fst →
          dget r' k = dget [("vlan_id", "20"), ("admin_state", "shutdown")] k) ∧
       (∀ k tbl, (k, tbl) ∈ vlan_value_map →
          dget r' k = pyLookupN tbl (dget [("vlan_id", "20"), ("admin_state", "shutdown")] k))) ∧
     (apply_value_map vlan_value_map [("vlan_id", "20"), ("admin_state", "shutdown")] = Except.error "KeyError" ↔
       ∃ k tbl, (k, tbl) ∈ vlan_value_map ∧
         pyLookupN tbl (dget [("vlan_id", "20"), ("admin_state", "shutdown")] k) = none)) :=
  ⟨by decide, c4_value_mapper vlan_value_map [("vlan_id", "20"), ("admin_state", "shutdown")] (by decide)⟩

/-- C4 counterexample: a field in the value map but absent from the
record.  The claim says such a field is skipped (no replacement, no
error, record returned unchanged); the source looks up
`valueMap["a"][None]` and raises `KeyError`. -/
theorem c4_value_mapper_counterexample :
    apply_value_map [("a", [("x", "y")])] [] = Except.error "KeyError" ∧
    ¬ (apply_value_map [("a", [("x", "y")])] [] = Except.ok []) := by
  constructor
  · rfl
  · intro h
    rw [show apply_value_map [("a", [("x", "y")])] [] = Except.error "KeyError" from rfl] at h
    cases h

/-- C9 (amended): `apply_value_map` mutates its argument in place and
returns the same object: after a successful call, the contents of the
caller's record equal the returned record (which differs from the
original contents exactly at the value-mapped fields), not the original
contents. -/
theorem c9_in_place_mutation (vm : ValueMap) (r r' : Dict)
    (hok : apply_value_map vm r = Except.ok r') :
    apply_value_map_post vm r = r' := by
  unfold apply_value_map at hok
  unfold apply_value_map_post
  rcases hav : avmAux vm r with ⟨oe, r2⟩
  rw [hav] at hok
  cases oe with
  | some e => exact absurd hok (by simp)
  | none =>
    simp only [Except.ok.injEq] at hok
    exact hok

/-- C9 witness: the reverse value map applied to an `admin_state: down`
record leaves the caller's object holding the mapped value. -/
theorem c9_in_place_mutation_witness :
    apply_value_map_post vlan_reverse_value_map [("admin_state", "down")] =
      [("admin_state", "shutdown")] :=
  c9_in_place_mutation vlan_reverse_value_map [("admin_state", "down")]
    [("admin_state", "shutdown")] (by rfl)

/-- C9 counterexample: the claim says the input record is unchanged after
the call (copy-on-change).  In the source the assignment
`resource[key] = ...` writes through the caller's reference: after the
call the record differs from its original contents. -/
theorem c9_in_place_mutation_counterexample :
    apply_value_map_post vlan_reverse_value_map
        [("admin_state", "down"), ("name", "web")] =
      [("admin_state", "shutdown"), ("name", "web")] ∧
    apply_value_map_post vlan_reverse_value_map
        [("admin_state", "down"), ("name", "web")] ≠
      [("admin_state", "down"), ("name", "web")] := by
  exact ⟨rfl, by decide⟩

/-- C1 (amended): with an empty delta, `get_interface_config_commands`
and `get_commands_config_mtu` return the empty command list, but
`get_vlan_config_commands` still returns the framing pair
`["vlan <vid>", "exit"]` (its framing and exit commands are emitted
unconditionally). -/
theorem c1_empty_delta_commands :
    (∀ (intf : String) (existing : Dict),
        get_interface_config_commands [] intf existing = Except.ok []) ∧
    (∀ interface : Option String, get_commands_config_mtu [] interface = []) ∧
    (∀ vid : String,
        get_vlan_config_commands [] vid = Except.ok ["vlan " ++ vid, "exit"]) :=
  ⟨fun _ _ => rfl, fun _ => rfl, fun _ => rfl⟩

/-- C1 counterexample: the claim says every generator returns an empty
list on an empty delta; `get_vlan_config_commands` returns the framing
and exit commands instead. -/
theorem c1_empty_delta_counterexample :
    get_vlan_config_commands [] "10" = Except.ok ["vlan 10", "exit"] ∧
    ¬ (get_vlan_config_commands [] "10" = Except.ok []) := by
  constructor
  · rfl
  · intro h
    rw [show get_vlan_config_commands [] "10" = Except.ok ["vlan 10", "exit"] from rfl] at h
    simp at h

/-- C2 (amended): decoding `"2-10,20,55-60"` through
`vlan_range_to_list` followed by `numerical_sort` (as `nxos_vlan.main`
does) yields the *decimal strings* `["2", ..., "10", "20", "55", ...,
"60"]`, whose underlying integers `[2..10, 20, 55..60]` are strictly
ascending with no duplicates. -/
theorem c2_range_codec_decode :
    (vlan_range_to_list (some "2-10,20,55-60")).bind numerical_sort =
      Except.ok (([2, 3, 4, 5, 6, 7, 8, 9, 10, 20, 55, 56, 57, 58, 59, 60] :
        List Int).map fun n => PyV.str (toString n)) ∧
    List.Chain' (· < ·)
      ([2, 3, 4, 5, 6, 7, 8, 9, 10, 20, 55, 56, 57, 58, 59, 60] : List Int) :=
  ⟨rfl, by norm_num [List.chain'_cons]⟩

/-- C2 counterexample: the claim says the decoded sequence is a sequence
of *integers*; the elements produced by `numerical_sort` are decimal
strings (`PyV.str`), not ints. -/
theorem c2_range_codec_counterexample :
    (vlan_range_to_list (some "2-10,20,55-60")).bind numerical_sort =
      Except.ok (([2, 3, 4, 5, 6, 7, 8, 9, 10, 20, 55, 56, 57, 58, 59, 60] :
        List Int).map fun n => PyV.str (toString n)) ∧
    ¬ ((vlan_range_to_list (some "2-10,20,55-60")).bind numerical_sort =
      Except.ok (([2, 3, 4, 5, 6, 7, 8, 9, 10, 20, 55, 56, 57, 58, 59, 60] :
        List Int).map fun n => PyV.int n)) := by
  constructor
  · rfl
  · intro h
    rw [show (vlan_range_to_list (some "2-10,20,55-60")).bind numerical_sort =
      Except.ok (([2, 3, 4, 5, 6, 7, 8, 9, 10, 20, 55, 56, 57, 58, 59, 60] :
        List Int).map fun n => PyV.str (toString n)) from rfl] at h
    simp at h

/-- C8 (amended): `get_list_of_vlans` normalizes an absent body to `[]`
and a list-shaped `ROW_vlanbrief` to the list of the rows' VLAN ids, but
for a singleton (non-list) row it returns the hardcoded `["1"]` - the
default VLAN id - which contains the row's id only when that row is
VLAN 1. -/
theorem c8_singleton_rows (rows : List Dict) (ids : List String)
    (hids : rows.map (fun row => dget row "vlanshowbr-vlanid-utf") = ids.map some) :
    (∀ row : Dict, get_list_of_vlans_body (some (RowEnv.single row)) = Except.ok ["1"]) ∧
    get_list_of_vlans_body none = Except.ok [] ∧
    get_list_of_vlans_body (some (RowEnv.listRows rows)) = Except.ok ids := by
  refine ⟨fun _ => rfl, rfl, ?_⟩
  have haux : ∀ (rs : List Dict) (is' : List String) (acc : List String),
      rs.map (fun row => dget row "vlanshowbr-vlanid-utf") = is'.map some →
      vlanRowsLoop rs acc = Except.ok (acc ++ is') := by
    intro rs
    induction rs with
    | nil =>
      intro is' acc h
      cases is' with
      | nil => simp [vlanRowsLoop]
      | cons i is'' => simp at h
    | cons row rs' ih =>
      intro is' acc h
      cases is' with
      | nil => simp at h
      | cons i is'' =>
        simp only [List.map_cons, List.cons.injEq] at h
        obtain ⟨h1, h2⟩ := h
        simp only [vlanRowsLoop, h1]
        rw [ih is'' (acc ++ [i]) h2]
        simp
  exact haux rows ids [] hids

/-- C8 witness: a two-row (list-shaped) response yields both ids; the
empty body yields `[]`; the singleton case yields `["1"]`. -/
theorem c8_singleton_rows_witness :
    ([[("vlanshowbr-vlanid-utf", "1")], [("vlanshowbr-vlanid-utf", "20")]].map
        (fun row : Dict => dget row "vlanshowbr-vlanid-utf") =
      (["1", "20"] : List String).map some) ∧
    ((∀ row : Dict, get_list_of_vlans_body (some (RowEnv.single row)) = Except.ok ["1"]) ∧
     get_list_of_vlans_body none = Except.ok [] ∧
     get_list_of_vlans_body
       (some (RowEnv.listRows [[("vlanshowbr-vlanid-utf", "1")],
                               [("vlanshowbr-vlanid-utf", "20")]])) =
       Except.ok ["1", "20"]) :=
  ⟨by decide,
   c8_singleton_rows [[("vlanshowbr-vlanid-utf", "1")], [("vlanshowbr-vlanid-utf", "20")]]
     ["1", "20"] (by decide)⟩

/-- C8 counterexample: a singleton row for VLAN 5 - the claim says the
reader exposes the one-element list with that row's id (`["5"]`); the
source appends the literal `'1'` instead. -/
theorem c8_singleton_rows_counterexample :
    get_list_of_vlans_body (some (RowEnv.single [("vlanshowbr-vlanid-utf", "5")])) =
      Except.ok ["1"] ∧
    ¬ (get_list_of_vlans_body (some (RowEnv.single [("vlanshowbr-vlanid-utf", "5")])) =
      Except.ok ["5"]) := by
  constructor
  · rfl
  · intro h
    rw [show get_list_of_vlans_body (some (RowEnv.single [("vlanshowbr-vlanid-utf", "5")])) =
      Except.ok ["1"] from rfl] at h
    simp at h

theorem startsAux_iff (p s : List Char) :
    startsAux p s = true ↔ ∃ t, p ++ t = s := by
  induction p generalizing s with
  | nil =>
    simp [startsAux]
  | cons a ps ih =>
    cases s with
    | nil =>
      simp [startsAux]
    | cons b bs =>
      simp only [startsAux, Bool.and_eq_true, beq_iff_eq, ih, List.cons_append,
        List.cons.injEq]
      constructor
      · rintro ⟨rfl, t, rfl⟩
        exact ⟨t, rfl, rfl⟩
      · rintro ⟨t, rfl, rfl⟩
        exact ⟨rfl, t, rfl⟩

/-- C10: every speed string starting with `"100 M"` also starts with
`"10"`, so `get_interface_speed` returns `'10000'` for it (the final
`'100'` branch is unreachable for such inputs), and a string matching
none of the recognized prefixes falls through every branch and yields
`None` rather than raising. -/
theorem c10_interface_speed :
    (∀ s : String, pyStartswith s "100 M" = true →
        get_interface_speed s = some "10000") ∧
    (∀ s : String, pyStartswith s "auto" = false → pyStartswith s "40" = false →
        pyStartswith s "100 G" = false → pyStartswith s "10" = false →
        pyStartswith s "1" = false → pyStartswith s "100 M" = false →
        get_interface_speed s = none) := by
  constructor
  · intro s h
    obtain ⟨data⟩ := s
    obtain ⟨t, ht⟩ := (startsAux_iff _ _).mp h
    simp only [String.data] at ht
    subst ht
    rfl
  · intro s h1 h2 h3 h4 h5 h6
    unfold get_interface_speed
    rw [h1, h2, h3, h4, h5, h6]
    rfl

/-- C10 witness: `"100 Mb/s"` starts with `"100 M"` yet maps to
`'10000'`; `"unknown"` matches no prefix and maps to `None`. -/
theorem c10_interface_speed_witness :
    pyStartswith "100 Mb/s" "100 M" = true ∧
    get_interface_speed "100 Mb/s" = some "10000" ∧
    get_interface_speed "unknown" = none :=
  ⟨rfl, c10_interface_speed.1 "100 Mb/s" rfl,
   c10_interface_speed.2 "unknown" rfl rfl rfl rfl rfl rfl⟩

theorem exc_bind_ok {α β : Type} {m : Except String α} {k : α → Except String β}
    {b : β} (h : m.bind k = Except.ok b) :
    ∃ a, m = Except.ok a ∧ k a = Except.ok b := by
  cases m with
  | error e => exact Except.noConfusion h
  | ok a => exact ⟨a, rfl, h⟩

theorem frameCommands_head (f : String) (l : List String)
    (h : frameCommands f l ≠ []) : (frameCommands f l).head? = some f := by
  by_cases hl : l = []
  · subst hl
    simp [frameCommands] at h
  · simp [frameCommands, hl]

/-- C6: whenever one of the framed-entity command generators returns a
non-empty command sequence, its first element is the context-entry
framing command (`interface X` / `vlan Y`); no body command ever precedes
it.  (`get_vlan_config_commands` output is always non-empty.) -/
theorem c6_framing_invariant :
    (∀ (interface : Dict) (intf : String) (existing : Dict) (cmds : List String),
        get_interface_config_commands interface intf existing = Except.ok cmds →
        cmds ≠ [] → cmds.head? = some ("interface " ++ intf)) ∧
    (∀ (interface : String) (existing proposed : Switchport) (cmds : List String),
        get_switchport_config_commands interface existing proposed = Except.ok cmds →
        cmds ≠ [] → cmds.head? = some ("interface " ++ interface)) ∧
    (∀ (vlan : Dict) (vid : String) (cmds : List String),
        get_vlan_config_commands vlan vid = Except.ok cmds →
        cmds.head? = some ("vlan " ++ vid)) := by
  refine ⟨?_, ?_, ?_⟩
  · intro interface intf existing cmds hok hne
    unfold get_interface_config_commands at hok
    obtain ⟨cs2, _, hok⟩ := exc_bind_ok hok
    try simp only at hok
    obtain ⟨cs5, _, hok⟩ := exc_bind_ok hok
    simp only [Except.ok.injEq] at hok
    subst hok
    exact frameCommands_head _ _ hne
  · intro interface existing proposed cmds hok hne
    unfold get_switchport_config_commands at hok
    obtain ⟨cs1, _, hok⟩ := exc_bind_ok hok
    simp only [Except.ok.injEq] at hok
    subst hok
    exact frameCommands_head _ _ hne
  · intro vlan vid cmds hok
    unfold get_vlan_config_commands at hok
    obtain ⟨vlan', _, hok⟩ := exc_bind_ok hok
    try simp only at hok
    obtain ⟨commands, _, hok⟩ := exc_bind_ok hok
    simp only [Except.ok.injEq] at hok
    subst hok
    rfl

/-- C6 witness: concrete non-empty deltas for all three generators; each
returned sequence starts with its framing command. -/
theorem c6_framing_invariant_witness :
    (["interface Ethernet1/1", "shutdown"] : List String).head? =
      some ("interface " ++ "Ethernet1/1") ∧
    (["interface Ethernet1/5", "switchport mode access",
      "switchport access vlan 5"] : List String).head? =
      some ("interface " ++ "Ethernet1/5") ∧
    (["vlan 10", "name web", "exit"] : List String).head? =
      some ("vlan " ++ "10") :=
  ⟨c6_framing_invariant.1 [("admin_state", "down")] "Ethernet1/1" []
     ["interface Ethernet1/1", "shutdown"] (by rfl) (by simp),
   c6_framing_invariant.2.1 "Ethernet1/5" { mode := some "trunk" }
     { mode := some "access", access_vlan := some "5" }
     ["interface Ethernet1/5", "switchport mode access",
      "switchport access vlan 5"] (by rfl) (by simp),
   c6_framing_invariant.2.2 [("name", "web")] "10"
     ["vlan 10", "name web", "exit"] (by rfl)⟩

/-- C5: when the delta carries a (truthy) `duplex` but no truthy `speed`,
and the existing record has a speed, the generated sequence re-emits
`speed <existing speed>` and it appears before `duplex <proposed duplex>`
(the speed command is inserted at the front of the body, the duplex
command appended after it). -/
theorem c5_duplex_requires_speed (delta : Dict) (intf : String)
    (existing : Dict) (dup sp : String) (cmds : List String)
    (hdup : pyTruthy (dget delta "duplex") = some dup)
    (hspeed : pyTruthy (dget delta "speed") = none)
    (hex : dget existing "speed" = some sp)
    (hok : get_interface_config_commands delta intf existing = Except.ok cmds) :
    ∃ l1 l2, cmds =
      ("interface " ++ intf) :: ("speed " ++ sp) ::
        (l1 ++ ("duplex " ++ dup) :: l2) := by
  unfold get_interface_config_commands at hok
  obtain ⟨cs2, _, hok⟩ := exc_bind_ok hok
  try simp only at hok
  simp only [hspeed, hdup, hex, pyFormat] at hok
  obtain ⟨cs5, ha, hok⟩ := exc_bind_ok hok
  simp only [Except.ok.injEq] at hok
  subst hok
  rcases hadm : pyTruthy (dget delta "admin_state") with _ | a
  · simp only [hadm, Except.ok.injEq] at ha
    subst ha
    exact ⟨cs2, [], by simp [frameCommands]⟩
  · simp only [hadm] at ha
    by_cases hup : a = "up"
    · rw [if_pos hup] at ha
      simp only [Except.ok.injEq] at ha
      subst ha
      exact ⟨cs2, ["no shutdown"], by simp [frameCommands]⟩
    · rw [if_neg hup] at ha
      by_cases hdn : a = "down"
      · rw [if_pos hdn] at ha
        simp only [Except.ok.injEq] at ha
        subst ha
        exact ⟨cs2, ["shutdown"], by simp [frameCommands]⟩
      · rw [if_neg hdn] at ha
        exact Except.noConfusion ha

/-- C5 witness: proposed `{duplex: full}` with existing `{speed: 1000}`
yields `speed 1000` before `duplex full`. -/
theorem c5_duplex_requires_speed_witness :
    ∃ l1 l2, (["interface Ethernet1/1", "speed 1000", "duplex full"] :
        List String) =
      ("interface " ++ "Ethernet1/1") :: ("speed " ++ "1000") ::
        (l1 ++ ("duplex " ++ "full") :: l2) :=
  c5_duplex_requires_speed [("duplex", "full")] "Ethernet1/1"
    [("speed", "1000")] "full" "1000"
    ["interface Ethernet1/1", "speed 1000", "duplex full"]
    (by rfl) (by rfl) (by rfl) (by rfl)

theorem all_trace_bind {α β : Type} (f : Event → Bool) (m : TraceM α)
    (k : α → TraceM β) (hm : (runTrace m).all f = true)
    (hk : ∀ a, (runTrace (k a)).all f = true) :
    (runTrace (m >>= k)).all f = true := by
  obtain ⟨evs, oa⟩ := m
  cases oa with
  | none => exact hm
  | some a =>
    show ((evs ++ (k a).1).all f) = true
    rw [List.all_append, Bool.and_eq_true]
    exact ⟨hm, hk a⟩

theorem dryAll_liftExc {α : Type} (e : Except String α) :
    (runTrace (liftExc e)).all dryRunOk = true := by
  cases e <;> rfl

theorem dryAll_parsed_mtu (dev : MtuDevice) (c : String) (t : Bool) :
    (runTrace (parsed_data_from_device_mtu dev c t)).all dryRunOk = true := by
  unfold parsed_data_from_device_mtu
  refine all_trace_bind _ _ _ rfl ?_
  intro _
  cases h : dev.showCmd c t with
  | error e =>
    dsimp only
    split <;> rfl
  | ok body => rfl

theorem dryAll_get_system_mtu (dev : MtuDevice) :
    (runTrace (get_system_mtu dev)).all dryRunOk = true := by
  unfold get_system_mtu
  refine all_trace_bind _ _ _ (dryAll_parsed_mtu dev _ _) ?_
  intro body
  cases body <;> rfl

theorem dryAll_get_mtu (dev : MtuDevice) (intf : String) :
    (runTrace (get_mtu dev intf)).all dryRunOk = true := by
  unfold get_mtu
  refine all_trace_bind _ _ _ (dryAll_parsed_mtu dev _ _) ?_
  intro body
  cases body with
  | intfTable row =>
    refine all_trace_bind _ _ _ (dryAll_get_system_mtu dev) ?_
    intro sysd
    cases dget sysd "sysmtu" <;> rfl
  | text s => rfl
  | noTable => rfl

theorem dryAll_is_default (dev : MtuDevice) (intf : String) :
    (runTrace (is_default dev intf)).all dryRunOk = true := by
  unfold is_default
  refine all_trace_bind _ _ _ (dryAll_parsed_mtu dev _ _) ?_
  intro body
  cases body with
  | text s =>
    dsimp only
    split <;> rfl
  | intfTable row => rfl
  | noTable => rfl

theorem dryAll_get_interface_mode (dev : MtuDevice) (intf it : String) :
    (runTrace (get_interface_mode dev intf it)).all dryRunOk = true := by
  unfold get_interface_mode
  split
  · refine all_trace_bind _ _ _ (dryAll_parsed_mtu dev _ _) ?_
    intro body
    cases body <;> rfl
  · split <;> rfl

theorem dryAll_get_list_of_vlans (dev : VlanDevice) :
    (runTrace (get_list_of_vlans dev)).all dryRunOk = true := by
  unfold get_list_of_vlans
  refine all_trace_bind _ _ _ rfl ?_
  intro _
  cases h : dev.showVlanBrief with
  | error e => rfl
  | ok body => exact dryAll_liftExc (get_list_of_vlans_body body)

theorem dryAll_get_vlan (dev : VlanDevice) (vid : String) :
    (runTrace (get_vlan dev vid)).all dryRunOk = true := by
  unfold get_vlan
  refine all_trace_bind _ _ _ rfl ?_
  intro _
  cases h : dev.showVlanId vid with
  | error e => rfl
  | ok body =>
    cases body with
    | none => rfl
    | some t =>
      exact dryAll_liftExc
        (apply_value_map vlan_value_map (apply_key_map vlan_key_map t))


theorem dryAll_mtuComboCheck (p : MtuParams) :
    (runTrace (mtuComboCheck p)).all dryRunOk = true := by
  unfold mtuComboCheck
  split <;> rfl

theorem dryAll_mtuReadExisting (p : MtuParams) (dev : MtuDevice) :
    (runTrace (mtuReadExisting p dev)).all dryRunOk = true := by
  unfold mtuReadExisting
  cases pyTruthy p.interface with
  | none =>
    refine all_trace_bind _ _ _ (dryAll_get_system_mtu dev) ?_
    intro _
    rfl
  | some intf =>
    refine all_trace_bind _ _ _ ?_ ?_
    · split
      · refine all_trace_bind _ _ _ (dryAll_is_default dev intf) ?_
        intro r
        split <;> rfl
      · rfl
    · intro _
      refine all_trace_bind _ _ _ (dryAll_get_mtu dev intf) ?_
      intro _
      rfl

theorem dryAll_mtuValidateMtu (p : MtuParams) (dev : MtuDevice)
    (existing : Dict) (info : Option (String × String)) :
    (runTrace (mtuValidateMtu p dev existing info)).all dryRunOk = true := by
  unfold mtuValidateMtu
  rcases info with _ | ⟨intf, intf_type⟩
  · rfl
  · cases pyTruthy p.mtu with
    | none => rfl
    | some mtuVal =>
      refine all_trace_bind _ _ _ ?_ ?_
      · split <;> rfl
      · intro _
        refine all_trace_bind _ _ _ (dryAll_get_interface_mode dev intf intf_type) ?_
        intro mode
        repeat' split
        all_goals rfl

theorem dryAll_mtuValidateSysmtu (p : MtuParams) :
    (runTrace (mtuValidateSysmtu p)).all dryRunOk = true := by
  unfold mtuValidateSysmtu
  cases pyTruthy p.sysmtu with
  | none => rfl
  | some sysv =>
    dsimp only
    repeat' split
    all_goals rfl

theorem dryAll_mtuApply (p : MtuParams) (dev : MtuDevice) (existing : Dict) :
    (runTrace (mtuApply p true dev existing)).all dryRunOk = true := by
  by_cases h : mtuCmds p existing = ""
  · unfold mtuApply
    rw [h]
    rfl
  · unfold mtuApply
    rw [if_pos h]
    rfl

theorem dryAll_mtu_main (p : MtuParams) (dev : MtuDevice) :
    (mtu_main p true dev).all dryRunOk = true := by
  unfold mtu_main mtu_main_t
  refine all_trace_bind _ _ _ (dryAll_mtuComboCheck p) ?_
  intro _
  refine all_trace_bind _ _ _ (dryAll_mtuReadExisting p dev) ?_
  intro st
  refine all_trace_bind _ _ _ (dryAll_mtuValidateMtu p dev st.1 st.2) ?_
  intro _
  refine all_trace_bind _ _ _ (dryAll_mtuValidateSysmtu p) ?_
  intro _
  exact dryAll_mtuApply p dev st.1

theorem dryAll_vlanDigitCheck (p : VlanParams) :
    (runTrace (vlanDigitCheck p)).all dryRunOk = true := by
  unfold vlanDigitCheck
  cases pyTruthy p.vlan_id with
  | none => rfl
  | some vid =>
    dsimp only
    split <;> rfl

theorem dryAll_vlanComputeCommands (p : VlanParams) (dev : VlanDevice)
    (pvl evl : List PyV) :
    (runTrace (vlanComputeCommands p dev pvl evl)).all dryRunOk = true := by
  unfold vlanComputeCommands
  cases pyTruthy p.vlan_range with
  | some s =>
    dsimp only
    repeat' split
    all_goals rfl
  | none =>
    cases p.vlan_id with
    | none => rfl
    | some vid =>
      refine all_trace_bind _ _ _ (dryAll_get_vlan dev vid) ?_
      intro existing
      dsimp only
      repeat' split
      all_goals first
        | rfl
        | exact dryAll_liftExc _

theorem dryAll_vlanApply (p : VlanParams) (dev : VlanDevice)
    (commands : List String) :
    (runTrace (vlanApply p true dev commands)).all dryRunOk = true := by
  by_cases h : command_list_to_string commands = ""
  · unfold vlanApply
    rw [h]
    rfl
  · unfold vlanApply
    rw [if_pos h]
    rfl

theorem dryAll_vlan_main (p : VlanParams) (dev : VlanDevice) :
    (vlan_main p true dev).all dryRunOk = true := by
  unfold vlan_main vlan_main_t
  refine all_trace_bind _ _ _ (dryAll_vlanDigitCheck p) ?_
  intro _
  refine all_trace_bind _ _ _ (dryAll_liftExc _) ?_
  intro pv
  refine all_trace_bind _ _ _ (dryAll_liftExc _) ?_
  intro pvl
  refine all_trace_bind _ _ _ (dryAll_get_list_of_vlans dev) ?_
  intro evl
  refine all_trace_bind _ _ _ (dryAll_liftExc _) ?_
  intro evl'
  refine all_trace_bind _ _ _ (dryAll_vlanComputeCommands p dev pvl evl') ?_
  intro commands
  exact dryAll_vlanApply p dev commands

/-- C7: in check (dry-run) mode, neither module ever invokes the device
client's `config`, and any module exit carrying a non-empty command
string reports `changed=true`; the two concrete runs show the Command
Generator still runs and its commands are reported in the check-mode
exit. -/
theorem c7_dry_run :
    (∀ (p : MtuParams) (dev : MtuDevice),
        (mtu_main p true dev).all dryRunOk = true) ∧
    (mtu_main { mtu := some "9000", interface := some "Ethernet1/1" } true mtuDevA =
      [Event.devShow "show interface Ethernet1/1" false,
       Event.devShow "show run all | inc jumbomtu" true,
       Event.devShow "show interface Ethernet1/1" false,
       Event.exitJson true "interface Ethernet1/1 ; mtu 9000 ;"]) ∧
    (∀ (p : VlanParams) (dev : VlanDevice),
        (vlan_main p true dev).all dryRunOk = true) ∧
    (vlan_main { vlan_id := some "20", admin_state := some "down" } true vlanDevB =
      [Event.devShow "show vlan" false,
       Event.devShow "show vlan id 20" false,
       Event.exitJson true "vlan 20 ; shutdown ; exit ;"]) :=
  ⟨dryAll_mtu_main, rfl, dryAll_vlan_main, rfl⟩

/-- C3 (amended): the disallowed parameter-combination check of
`nxos_mtu.main` and the `vlan_id` digit check of `nxos_vlan.main` fire
before any device interaction (the whole trace is the single `fail_json`
event), but - per the counterexample - the out-of-bounds MTU check runs
only after the existing state has been read from the device. -/
theorem c3_validation_order :
    (∀ (p : MtuParams) (cm : Bool) (dev : MtuDevice),
        (pyTruthy p.sysmtu).isSome = true →
        ((pyTruthy p.interface).isSome = true ∨ (pyTruthy p.mtu).isSome = true) →
        mtu_main p cm dev = [Event.failJson mtuComboMsg]) ∧
    (∀ (p : VlanParams) (cm : Bool) (dev : VlanDevice) (vid : String),
        pyTruthy p.vlan_id = some vid →
        pyIsdigit vid = false →
        vlan_main p cm dev = [Event.failJson "vlan_id must be a valid VLAN ID"]) := by
  constructor
  · intro p cm dev h1 h2
    have hc : mtuComboCheck p = fail_json mtuComboMsg := by
      unfold mtuComboCheck
      exact if_pos ⟨h1, h2⟩
    unfold mtu_main mtu_main_t
    rw [hc]
    rfl
  · intro p cm dev vid hvid hdig
    have hc : vlanDigitCheck p = fail_json "vlan_id must be a valid VLAN ID" := by
      unfold vlanDigitCheck
      rw [hvid]
      dsimp only
      exact if_pos (by simp [hdig])
    unfold vlan_main vlan_main_t
    rw [hc]
    rfl

/-- C3 witness: a sysmtu+interface invocation and a non-digit `vlan_id`
invocation each fail with no device event in the trace. -/
theorem c3_validation_order_witness :
    mtu_main { sysmtu := some "8000", interface := some "Ethernet1/1" } false mtuDevA =
      [Event.failJson mtuComboMsg] ∧
    vlan_main { vlan_id := some "abc" } false vlanDevB =
      [Event.failJson "vlan_id must be a valid VLAN ID"] :=
  ⟨c3_validation_order.1 _ false mtuDevA (by rfl) (Or.inl (by rfl)),
   c3_validation_order.2 _ false vlanDevB "abc" (by rfl) (by rfl)⟩

/-- C3 counterexample: `mtu=100` on Ethernet1/1 is out of bounds
(100 < 576), yet the validation `fail_json` is the *fourth* trace event:
`get_mtu` (two show reads) and `get_interface_mode` (one show read) talk
to the device first, contradicting the claim that the validation failure
precedes any device interaction. -/
theorem c3_validation_order_counterexample :
    mtu_main { mtu := some "100", interface := some "Ethernet1/1" } false mtuDevA =
      [Event.devShow "show interface Ethernet1/1" false,
       Event.devShow "show run all | inc jumbomtu" true,
       Event.devShow "show interface Ethernet1/1" false,
       Event.failJson mtuL3Msg] := rfl
